import Mathlib

/-!
Verification of `packages/components/nodes/tools/MCP/core.ts`.

This file gives a shallow embedding of the MCP toolkit core: the
`MCPToolkit` lifecycle (`initialize`, `setupTransport`, `get_tools`,
`cleanup`), the `MCPTool` response normalization, `createSchemaModel`,
and the process-wide shutdown sweep (`shutdownGracefully` guarded by the
`shuttingDown` latch over the `activeToolkits` registry).

External collaborators (the MCP SDK client, zod schemas, the OS) are
modelled by their documented contracts; each such definition carries a
comment saying what it models.  JavaScript objects are modelled as
association lists, JS `undefined` as `Option.none`, and thrown
exceptions as `Except` errors.
-/

namespace MCPCore

/-- JSON values as delivered by the remote tool server.  Numbers are
modelled as integers (the only numeric reply exercised here is `42`). -/
inductive Json where
  | null
  | bool (b : Bool)
  | num (n : Int)
  | str (s : String)
  | arr (elems : List Json)
  | obj (fields : List (String × Json))

/-- JSON string escaping as performed by `JSON.stringify` (only the
escapes relevant to the values exercised here: quote and backslash). -/
def escapeChar (c : Char) : String :=
  if c = '"' then "\\\"" else if c = '\\' then "\\\\" else String.singleton c

def escapeString (s : String) : String :=
  String.join (s.data.map escapeChar)

mutual

/-- `JSON.stringify` on the `Json` model. -/
def stringify : Json → String
  | Json.null => "null"
  | Json.bool true => "true"
  | Json.bool false => "false"
  | Json.num n => toString n
  | Json.str s => "\"" ++ escapeString s ++ "\""
  | Json.arr xs => "[" ++ stringifyArr xs ++ "]"
  | Json.obj fs => "\x7b" ++ stringifyObj fs ++ "\x7d"

def stringifyArr : List Json → String
  | [] => ""
  | [x] => stringify x
  | x :: xs => stringify x ++ "," ++ stringifyArr xs

def stringifyObj : List (String × Json) → String
  | [] => ""
  | [(k, v)] => "\"" ++ escapeString k ++ "\":" ++ stringify v
  | (k, v) :: fs => "\"" ++ escapeString k ++ "\":" ++ stringify v ++ "," ++ stringifyObj fs

end

def isStrJson : Json → Bool
  | Json.str _ => true
  | _ => false

def isObjJson : Json → Bool
  | Json.obj _ => true
  | _ => false

/-- Modelled from the external MCP SDK contract: validity of one element
of the `content` array under `CallToolResultSchema` (a text, image or
embedded-resource content object). -/
def contentItemValid : Json → Bool
  | Json.obj fs =>
    match List.lookup "type" fs with
    | some (Json.str "text") => (List.lookup "text" fs).any isStrJson
    | some (Json.str "image") =>
        (List.lookup "data" fs).any isStrJson && (List.lookup "mimeType" fs).any isStrJson
    | some (Json.str "resource") => (List.lookup "resource" fs).any isObjJson
    | _ => false
  | _ => false

/-- Modelled from the external MCP SDK contract: the optional `isError`
boolean of `CallToolResultSchema` (absent or a boolean). -/
def isErrorFieldOk (fs : List (String × Json)) : Bool :=
  match List.lookup "isError" fs with
  | none => true
  | some (Json.bool _) => true
  | some _ => false

/-- Modelled from the external MCP SDK contract: `CallToolResultSchema`
requires an object whose `content` field is an array of valid content
items (with an optional boolean `isError`).  Returns the `content`
value; a validation failure is the zod error message. -/
def standardParse (reply : Json) : Except String Json :=
  match reply with
  | Json.obj fs =>
    match List.lookup "content" fs with
    | some (Json.arr items) =>
        if items.all contentItemValid && isErrorFieldOk fs then
          Except.ok (Json.arr items)
        else Except.error "standard schema validation failed"
    | _ => Except.error "standard schema validation failed"
  | _ => Except.error "standard schema validation failed"

/-- Modelled from the external MCP SDK contract:
`CompatibilityCallToolResultSchema` is the union of the standard schema
and `z.object(\x7btoolResult: z.unknown()\x7d)`; zod treats an `unknown`
field as optional, so the second branch accepts every object.  Returns
the `toolResult` field of the reply (`none` models JS `undefined`). -/
def compatParse (reply : Json) : Except String (Option Json) :=
  match standardParse reply with
  | Except.ok _ =>
      Except.ok (match reply with | Json.obj fs => List.lookup "toolResult" fs | _ => none)
  | Except.error _ =>
    match reply with
    | Json.obj fs => Except.ok (List.lookup "toolResult" fs)
    | _ => Except.error "compatibility schema validation failed"

/-- JS `x ?? ''`: both `undefined` (`none`) and `null` coalesce to the
empty string. -/
def jsCoalesce : Option Json → Json
  | none => Json.str ""
  | some Json.null => Json.str ""
  | some j => j

/-- Source: `typeof toolResult === 'string' ? toolResult :
JSON.stringify(toolResult ?? '')` (core.ts line 284). -/
def normalizeToolResult (tr : Option Json) : String :=
  match tr with
  | some (Json.str s) => s
  | _ => stringify (jsCoalesce tr)

/-- Source: the fallback string built when both schema attempts fail
(core.ts lines 293-295).  `ZodError` carries no `input` property, so the
`Raw Response` variant of the fallback is dead code and the plain
message is produced. -/
def errorFallback (name e1 e2 : String) : String :=
  "Error: Tool " ++ name ++ " failed. Standard Schema Error: " ++ e1 ++
    ". Compat Schema Error: " ++ e2

/-- Source: second attempt of the tool handler (core.ts lines 278-304):
call again with the compatibility schema; on success normalize
`toolResult`, on failure produce the fallback error string.  `res2` is
the outcome of the second `client.callTool` round trip (`Except.error`
models a transport/protocol failure of the call itself). -/
def compatAttempt (name e1 : String) (res2 : Except String Json) : String :=
  match res2 with
  | Except.ok reply =>
    match compatParse reply with
    | Except.ok tr => normalizeToolResult tr
    | Except.error e2 => errorFallback name e1 e2
  | Except.error e2 => errorFallback name e1 e2

/-- Source: the tool handler produced by `MCPTool` (core.ts lines
260-308).  `res1` and `res2` are the outcomes of the two
`client.callTool` round trips (the code re-issues the request for the
compatibility attempt).  The handler is total: every branch produces a
string, which embeds the "never fails outward" containment. -/
def mcpToolInvoke (name : String) (res1 res2 : Except String Json) : String :=
  match res1 with
  | Except.ok reply =>
    match standardParse reply with
    | Except.ok content => stringify (jsCoalesce (some content))
    | Except.error e1 => compatAttempt name e1 res2
  | Except.error e1 => compatAttempt name e1 res2

/-! ## Error taxonomy

The source throws plain `Error` objects; the spec names them.  Each
constructor records which `throw` site of core.ts it embeds. -/

/-- Errors surfaced by the toolkit lifecycle. -/
inductive MCPError where
  /-- `'Server command is required in MCP config'` (core.ts line 89). -/
  | configurationError
  /-- `'Failed to initialize transport'` (core.ts line 72). -/
  | transportInitError
  /-- a failure of `client.connect` (external transport/handshake). -/
  | connectError (msg : String)
  /-- a failure of the `tools/list` request (external protocol). -/
  | listError (msg : String)
  /-- `'Invalid schema type or missing properties'` (core.ts line 325). -/
  | schemaError
  /-- `'Must initialize the toolkit first'` (core.ts line 117). -/
  | notInitializedError
deriving DecidableEq

instance {α β : Type} [DecidableEq α] [DecidableEq β] : DecidableEq (Except α β) :=
  fun a b =>
    match a, b with
    | Except.ok x, Except.ok y =>
        if h : x = y then isTrue (by rw [h]) else isFalse (by intro hc; cases hc; exact h rfl)
    | Except.error x, Except.error y =>
        if h : x = y then isTrue (by rw [h]) else isFalse (by intro hc; cases hc; exact h rfl)
    | Except.ok _, Except.error _ => isFalse (by intro hc; cases hc)
    | Except.error _, Except.ok _ => isFalse (by intro hc; cases hc)

/-! ## Transport configuration -/

/-- The `serverParams` object handed to the `MCPToolkit` constructor:
`\x7b command, args, env \x7d`, each possibly absent (`none` models a
missing / undefined JS field). -/
structure ServerConfig where
  command : Option String
  args : Option (List String)
  env : Option (List (String × String))
deriving DecidableEq

/-- The `StdioClientTransport` launch parameters built by
`setupTransport` (command, args, merged env). -/
structure TransportSpec where
  command : String
  args : List String
  env : List (String × String)
deriving DecidableEq

/-- `process.platform` restricted to what the code inspects. -/
inductive Platform where
  | win32
  | other
deriving DecidableEq

/-- JS property assignment on an object modelled as an association
list: replace the value at an existing key in place, else append. -/
def setKey : List (String × String) → String → String → List (String × String)
  | [], k, v => [(k, v)]
  | p :: rest, k, v => if p.1 = k then (k, v) :: rest else p :: setKey rest k v

/-- JS object spread `\x7b ...a, ...b \x7d`: start from `a`, assign each
property of `b` in order (source: `\x7b ...process.env, ...(env || \x7b\x7d) \x7d`,
core.ts line 93). -/
def objectSpread (a b : List (String × String)) : List (String × String) :=
  b.foldl (fun acc kv => setKey acc kv.1 kv.2) a

/-- Source: the npx-on-Windows substitution (core.ts lines 96-99). -/
def resolveCommand (command : String) (platform : Platform) : String :=
  if command = "npx" ∧ platform = Platform.win32 then "npx.cmd" else command

/-- Source: `MCPToolkit.setupTransport` (core.ts lines 84-113).  Fails
when `command` is absent (`undefined`/`null`) or empty (both falsy in
JS); otherwise builds the transport spec with the merged environment.
On failure the method nulls `this.transport` and rethrows; the caller
`initToolkit` reflects that. -/
def setupTransport (config : ServerConfig) (hostEnv : List (String × String))
    (platform : Platform) : Except MCPError TransportSpec :=
  match config.command with
  | none => Except.error MCPError.configurationError
  | some c =>
    if c = "" then Except.error MCPError.configurationError
    else
      Except.ok
        { command := resolveCommand c platform
          args := config.args.getD []
          env := objectSpread hostEnv (config.env.getD []) }

/-! ## Tool descriptors and schema conversion -/

/-- One descriptor from the remote `tools/list` reply.  `description`
is optional (`tool.description || ''`).  The `inputSchema` is reduced
to its `type` tag and the key set of its `properties` map; `none`
models an absent/falsy `properties` (note `\x7b\x7d` is truthy in JS and is
modelled as `some []`). -/
structure ToolDescriptor where
  name : String
  description : Option String
  inputSchemaType : String
  inputSchemaProperties : Option (List String)
deriving DecidableEq

/-- The callable tool produced for the agent framework: name,
description and the keys of its argument schema (each mapped to
`z.any()` by the source). -/
structure ToolSpec where
  name : String
  description : String
  schemaKeys : List String
deriving DecidableEq

/-- Source: `createSchemaModel` (core.ts lines 318-332).  Throws unless
the input schema is object-typed with a (truthy) `properties` map;
otherwise maps every property key to a permissive `z.any()`. -/
def createSchemaModel (inputSchemaType : String)
    (properties : Option (List String)) : Except MCPError (List String) :=
  if inputSchemaType ≠ "object" then Except.error MCPError.schemaError
  else
    match properties with
    | none => Except.error MCPError.schemaError
    | some keys => Except.ok keys

/-- Conversion of one descriptor into a callable tool, as performed in
the `map` of `get_tools` (core.ts lines 119-129). -/
def convertDescriptor (d : ToolDescriptor) : Except MCPError ToolSpec :=
  match createSchemaModel d.inputSchemaType d.inputSchemaProperties with
  | Except.error e => Except.error e
  | Except.ok keys =>
      Except.ok { name := d.name, description := d.description.getD "", schemaKeys := keys }

/-- `Promise.all` over the conversion of every descriptor: the first
conversion failure rejects the whole list (core.ts line 130). -/
def convertAll : List ToolDescriptor → Except MCPError (List ToolSpec)
  | [] => Except.ok []
  | d :: rest =>
    match convertDescriptor d with
    | Except.error e => Except.error e
    | Except.ok t =>
      match convertAll rest with
      | Except.error e => Except.error e
      | Except.ok ts => Except.ok (t :: ts)

/-! ## Toolkit state -/

/-- The subprocess handle type (`ChildProcessWithoutNullStreams`): a
pid (possibly `undefined`) and the `killed` flag. -/
structure ChildProc where
  pid : Option Nat
  killed : Bool
deriving DecidableEq

/-- The mutable fields of one `MCPToolkit` instance (core.ts lines
21-29).  `client` is `Option Unit` — only nullness is observable here.
The field `listedTools` embeds the source field `_tools`. -/
structure ToolkitState where
  tools : List ToolSpec
  listedTools : Option (List ToolDescriptor)
  transport : Option TransportSpec
  client : Option Unit
  childProcess : Option ChildProc
deriving DecidableEq

/-- A freshly constructed toolkit (constructor, core.ts lines 31-41). -/
def freshToolkit : ToolkitState :=
  { tools := [], listedTools := none, transport := none, client := none, childProcess := none }

/-- Externally observable side effects of `cleanup`. -/
inductive Event where
  /-- the `cleanup` method was entered (before the registry check). -/
  | cleanupEntered
  /-- `transport.close()` was attempted; the flag records whether it
  succeeded (a failure is caught and only logged). -/
  | transportClose (ok : Bool)
  /-- `process.kill(pid, 'SIGTERM')` was attempted. -/
  | sigterm (pid : Nat)
  /-- `process.kill(pid, 'SIGKILL')` was attempted. -/
  | sigkill (pid : Nat)
deriving DecidableEq

/-- Outcome of a `process.kill` call (external OS behaviour): it either
returns a boolean or throws (`esrch` marks the tolerated
"process already gone" error). -/
inductive KillResult where
  | ret (sent : Bool)
  | thrown (esrch : Bool)
deriving DecidableEq

/-- External outcomes consumed by one `cleanup` run: whether
`transport.close()` throws, the result of the SIGTERM `process.kill`,
and whether the escalated SIGKILL throws.  All three are tolerated by
the source (caught and logged), which the theorems make precise by
quantifying over this record. -/
structure CleanupEnv where
  closeThrows : Bool
  sigtermResult : KillResult
  sigkillThrows : Bool
deriving DecidableEq

structure CleanupResult where
  state : ToolkitState
  registered : Bool
  events : List Event
deriving DecidableEq

/-- The fully released state left by a complete `cleanup` run
(core.ts lines 169, 175, 240-242). -/
def releasedToolkit : ToolkitState :=
  { tools := [], listedTools := none, transport := none, client := none, childProcess := none }

/-- Source: the SIGTERM/SIGKILL fallback branch of `cleanup` (core.ts
lines 177-228): attempted only when a child-process handle exists with
a truthy pid and `killed` unset; SIGKILL is attempted only when the
SIGTERM `process.kill` returned `false`; every throw is caught. -/
def killEvents (cenv : CleanupEnv) (p : ChildProc) : List Event :=
  match p.pid with
  | none => []
  | some pid =>
    if pid ≠ 0 ∧ p.killed = false then
      Event.sigterm pid ::
        (match cenv.sigtermResult with
         | KillResult.ret false => [Event.sigkill pid]
         | _ => [])
    else []

/-- Source: `MCPToolkit.cleanup` (core.ts lines 133-245).  `registered`
models `activeToolkits.has(this)`: when the toolkit is not in the
registry the method returns at once, touching nothing; otherwise it
removes itself from the registry, attempts `transport.close()` when a
transport is present (tolerating failure), attempts the kill fallback,
and nulls every field. -/
def cleanup (cenv : CleanupEnv) (s : ToolkitState) (registered : Bool) : CleanupResult :=
  if registered then
    { state := releasedToolkit
      registered := false
      events := Event.cleanupEntered ::
        ((if s.transport.isSome then [Event.transportClose (!cenv.closeThrows)] else []) ++
          (match s.childProcess with
           | some p => killEvents cenv p
           | none => [])) }
  else
    { state := s, registered := registered, events := [Event.cleanupEntered] }

/-! ## Initialization -/

/-- Source: `MCPToolkit.get_tools` (core.ts lines 115-131): requires a
listed tool set and a client, then converts every descriptor. -/
def get_tools (s : ToolkitState) : Except MCPError (List ToolSpec) :=
  match s.listedTools, s.client with
  | some descs, some _ => convertAll descs
  | _, _ => Except.error MCPError.notInitializedError

/-- External outcomes consumed by one `initialize` run: the result of
`client.connect(transport)` (which spawns the subprocess) and of the
`tools/list` request. -/
structure InitEnv where
  connectOutcome : Except MCPError Unit
  listOutcome : Except MCPError (List ToolDescriptor)
deriving DecidableEq

structure InitResult where
  state : ToolkitState
  registered : Bool
  events : List Event
  result : Except MCPError Unit
deriving DecidableEq

/-- The catch block of `initialize` (core.ts lines 74-80): log, `await
this.cleanup()`, rethrow the original error. -/
def initFail (cenv : CleanupEnv) (s : ToolkitState) (registered : Bool)
    (e : MCPError) : InitResult :=
  let r := cleanup cenv s registered
  { state := r.state, registered := r.registered, events := r.events,
    result := Except.error e }

/-- Source: `MCPToolkit.initialize` (core.ts lines 43-81).  A no-op
when client and listed tools are already present; otherwise assigns a
fresh client, runs `setupTransport` (whose failure leaves
`this.transport = null`), connects, lists, and converts descriptors;
any failure funnels through the catch block (`initFail`).  Note the
method never adds the toolkit to the registry: `registered` is only
ever changed by the `cleanup` call on the failure path. -/
def initToolkit (ienv : InitEnv) (cenv : CleanupEnv) (config : ServerConfig)
    (hostEnv : List (String × String)) (platform : Platform)
    (s : ToolkitState) (registered : Bool) : InitResult :=
  if s.client.isSome ∧ s.listedTools.isSome then
    { state := s, registered := registered, events := [], result := Except.ok () }
  else
    match setupTransport config hostEnv platform with
    | Except.error e =>
        initFail cenv { s with client := some (), transport := none } registered e
    | Except.ok t =>
      match ienv.connectOutcome with
      | Except.error e =>
          initFail cenv { s with client := some (), transport := some t } registered e
      | Except.ok _ =>
        match ienv.listOutcome with
        | Except.error e =>
            initFail cenv { s with client := some (), transport := some t } registered e
        | Except.ok descs =>
          match get_tools
              { s with client := some (), transport := some t, listedTools := some descs } with
          | Except.error e =>
              initFail cenv
                { s with client := some (), transport := some t, listedTools := some descs }
                registered e
          | Except.ok tls =>
              { state :=
                  { s with
                    client := some ()
                    transport := some t
                    listedTools := some descs
                    tools := tls }
                registered := registered
                events := []
                result := Except.ok () }

/-! ## Registry and shutdown sweep -/

/-- The process-wide state: the `shuttingDown` latch (core.ts line 17)
and the `activeToolkits` registry (core.ts line 16), keyed by toolkit
identity. -/
structure GlobalState where
  shuttingDown : Bool
  activeToolkits : List (Nat × ToolkitState)
deriving DecidableEq

/-- The sweep loop of `shutdownGracefully` (core.ts lines 348-357): for
each member of the snapshot, run its `cleanup` against the live
registry (`registered` is the `activeToolkits.has(this)` check, the
removal is `activeToolkits.delete(this)`); `Promise.allSettled` waits
for every outcome, so each member is processed regardless of the
others' results.  Returns the per-toolkit event lists and the final
registry. -/
def sweep (cenvOf : Nat → CleanupEnv) :
    List (Nat × ToolkitState) → List (Nat × ToolkitState) →
      List (Nat × List Event) × List (Nat × ToolkitState)
  | [], reg => ([], reg)
  | tk :: rest, reg =>
    let registered := (reg.lookup tk.1).isSome
    let r := cleanup (cenvOf tk.1) tk.2 registered
    let regNext := if registered then reg.filter (fun q => q.1 != tk.1) else reg
    let tail := sweep cenvOf rest regNext
    ((tk.1, r.events) :: tail.1, tail.2)

/-- Source: `shutdownGracefully` (core.ts lines 335-365): return at
once when the `shuttingDown` latch is set (the check and the set are
synchronous, with no suspension point between them); otherwise set the
latch, snapshot the registry and sweep it. -/
def shutdownGracefully (cenvOf : Nat → CleanupEnv) (g : GlobalState) :
    GlobalState × List (Nat × List Event) :=
  if g.shuttingDown then (g, [])
  else
    let r := sweep cenvOf g.activeToolkits g.activeToolkits
    ({ shuttingDown := true, activeToolkits := r.2 }, r.1)

/-- Repeated delivery of interrupt/termination signals: each delivery
invokes `shutdownGracefully` (core.ts lines 368-371); the JS event loop
runs the handlers one after another.  Accumulates all sweep events. -/
def deliverSignals (cenvOf : Nat → CleanupEnv) :
    Nat → GlobalState → GlobalState × List (Nat × List Event)
  | 0, g => (g, [])
  | Nat.succ n, g =>
    let r := shutdownGracefully cenvOf g
    let r2 := deliverSignals cenvOf n r.1
    (r2.1, r.2 ++ r2.2)

/-! ## Concrete fixtures used by counterexamples and witnesses -/

/-- A benign cleanup environment: close succeeds, SIGTERM delivered. -/
def cenvOk : CleanupEnv :=
  { closeThrows := false, sigtermResult := KillResult.ret true, sigkillThrows := false }

/-- A hostile cleanup environment: close throws, SIGTERM returns
`false`, SIGKILL throws with a non-ESRCH error. -/
def cenvBad : CleanupEnv :=
  { closeThrows := true, sigtermResult := KillResult.ret false, sigkillThrows := true }

/-- A descriptor whose schema converts successfully. -/
def goodDesc : ToolDescriptor :=
  { name := "echo", description := some "echo tool", inputSchemaType := "object",
    inputSchemaProperties := some ["msg"] }

/-- A descriptor whose schema is not object-typed. -/
def badDesc : ToolDescriptor :=
  { name := "broken", description := none, inputSchemaType := "string",
    inputSchemaProperties := none }

/-- External outcomes of a fully successful initialization listing one
good tool. -/
def ienvOk : InitEnv :=
  { connectOutcome := Except.ok (), listOutcome := Except.ok [goodDesc] }

/-- A configuration with a present, non-empty command. -/
def cfgOk : ServerConfig :=
  { command := some "node", args := some ["server.js"], env := some [] }

/-- A configuration with the command absent. -/
def cfgNoCommand : ServerConfig :=
  { command := none, args := none, env := none }

/-! ## Helper lemmas -/

/-- `cleanup` never leaves the toolkit registered: the full path
deletes it from the registry, the early-return path only fires when it
was not registered. -/
theorem cleanup_registered_false (cenv : CleanupEnv) (s : ToolkitState) (reg : Bool) :
    (cleanup cenv s reg).registered = false := by
  cases reg <;> simp [cleanup]

/-- Both paths of `cleanup` record that the method was entered. -/
theorem cleanupEntered_mem (cenv : CleanupEnv) (s : ToolkitState) (reg : Bool) :
    Event.cleanupEntered ∈ (cleanup cenv s reg).events := by
  cases reg <;> simp [cleanup]

/-- A registered toolkit is fully released by `cleanup`. -/
theorem cleanup_state_of_registered (cenv : CleanupEnv) (s : ToolkitState) :
    (cleanup cenv s true).state = releasedToolkit := by
  simp [cleanup]

/-- `cleanup` keeps a null `childProcess` null. -/
theorem cleanup_childProcess_none (cenv : CleanupEnv) (s : ToolkitState) (reg : Bool)
    (h : s.childProcess = none) : (cleanup cenv s reg).state.childProcess = none := by
  cases reg <;> simp [cleanup, releasedToolkit, h]

/-- With no child-process handle, `cleanup` attempts no kill signal. -/
theorem cleanup_no_kill_of_none (cenv : CleanupEnv) (s : ToolkitState) (reg : Bool)
    (h : s.childProcess = none) :
    ∀ pid, Event.sigterm pid ∉ (cleanup cenv s reg).events ∧
      Event.sigkill pid ∉ (cleanup cenv s reg).events := by
  intro pid
  cases reg <;> simp [cleanup, h]

/-- Case shape of `initToolkit`: it either returns `ok` with the
registry membership unchanged and the child-process handle untouched,
or funnels some intermediate state (with the original child-process
handle) through the catch block `initFail`. -/
theorem initToolkit_shape (ienv : InitEnv) (cenv : CleanupEnv) (cfg : ServerConfig)
    (hostEnv : List (String × String)) (platform : Platform)
    (s : ToolkitState) (reg : Bool) :
    ((initToolkit ienv cenv cfg hostEnv platform s reg).result = Except.ok () ∧
      (initToolkit ienv cenv cfg hostEnv platform s reg).registered = reg ∧
      (initToolkit ienv cenv cfg hostEnv platform s reg).state.childProcess =
        s.childProcess) ∨
    ∃ e s', s'.childProcess = s.childProcess ∧
      initToolkit ienv cenv cfg hostEnv platform s reg = initFail cenv s' reg e := by
  unfold initToolkit
  split
  · exact Or.inl ⟨rfl, rfl, rfl⟩
  · split
    · refine Or.inr ⟨_, _, ?_, rfl⟩
      rfl
    · split
      · refine Or.inr ⟨_, _, ?_, rfl⟩
        rfl
      · split
        · refine Or.inr ⟨_, _, ?_, rfl⟩
          rfl
        · split
          · refine Or.inr ⟨_, _, ?_, rfl⟩
            rfl
          · exact Or.inl ⟨rfl, rfl, rfl⟩

/-- A descriptor with a non-object schema or missing properties map
fails conversion with the schema error. -/
theorem convertDescriptor_error (d : ToolDescriptor)
    (h : d.inputSchemaType ≠ "object" ∨ d.inputSchemaProperties = none) :
    convertDescriptor d = Except.error MCPError.schemaError := by
  rcases h with h | h
  · simp [convertDescriptor, createSchemaModel, h]
  · by_cases ht : d.inputSchemaType = "object" <;>
      simp [convertDescriptor, createSchemaModel, ht, h]

/-- Conversion failures carry only the schema error. -/
theorem convertDescriptor_error_cases (d : ToolDescriptor) (e : MCPError)
    (h : convertDescriptor d = Except.error e) : e = MCPError.schemaError := by
  by_cases ht : d.inputSchemaType = "object"
  · cases hp : d.inputSchemaProperties with
    | none =>
      simp [convertDescriptor, createSchemaModel, ht, hp] at h
      exact h.symm
    | some keys =>
      simp [convertDescriptor, createSchemaModel, ht, hp] at h
  · simp [convertDescriptor, createSchemaModel, ht] at h
    exact h.symm

/-- One bad descriptor anywhere in the listing fails the whole
conversion with the schema error. -/
theorem convertAll_error_of_bad (descs : List ToolDescriptor) (d : ToolDescriptor)
    (hd : d ∈ descs)
    (hbad : d.inputSchemaType ≠ "object" ∨ d.inputSchemaProperties = none) :
    convertAll descs = Except.error MCPError.schemaError := by
  induction descs with
  | nil => cases hd
  | cons d0 rest ih =>
    rcases List.mem_cons.mp hd with h | h
    · subst h
      simp [convertAll, convertDescriptor_error d hbad]
    · cases hc : convertDescriptor d0 with
      | error e =>
        rw [convertDescriptor_error_cases d0 e hc] at hc
        simp [convertAll, hc]
      | ok t => simp [convertAll, hc, ih h]

/-- Association-list lookup at the head key. -/
theorem lookup_cons_self {α β : Type} [BEq α] [LawfulBEq α] (k : α) (v : β)
    (l : List (α × β)) : List.lookup k ((k, v) :: l) = some v := by
  simp [List.lookup]

/-- Association-list lookup skips a head with a different key. -/
theorem lookup_cons_ne {α β : Type} [BEq α] [LawfulBEq α] (k k0 : α) (v : β)
    (l : List (α × β)) (h : k ≠ k0) :
    List.lookup k ((k0, v) :: l) = List.lookup k l := by
  have hb : (k == k0) = false := beq_eq_false_iff_ne.mpr h
  simp [List.lookup, hb]

/-- A key outside the key set of an association list has no binding. -/
theorem lookup_none_of_not_mem {α β : Type} [BEq α] [LawfulBEq α]
    (l : List (α × β)) (k : α) (h : k ∉ l.map Prod.fst) : l.lookup k = none := by
  induction l with
  | nil => rfl
  | cons p rest ih =>
    obtain ⟨pk, pv⟩ := p
    simp only [List.map_cons, List.mem_cons] at h
    push_neg at h
    rw [lookup_cons_ne k pk pv rest h.1]
    exact ih h.2

/-- JS property assignment: looking up the assigned key finds the new
value, every other key is unaffected. -/
theorem setKey_lookup (l : List (String × String)) (k0 v0 k : String) :
    (setKey l k0 v0).lookup k = if k = k0 then some v0 else l.lookup k := by
  induction l with
  | nil =>
    by_cases h : k = k0
    · subst h; simp [setKey, lookup_cons_self]
    · simp [setKey, h, lookup_cons_ne k k0 v0 [] h]
  | cons p rest ih =>
    obtain ⟨pk, pv⟩ := p
    by_cases hp : pk = k0
    · subst hp
      by_cases h : k = pk
      · subst h; simp [setKey, lookup_cons_self]
      · simp [setKey, h, lookup_cons_ne k pk v0 rest h, lookup_cons_ne k pk pv rest h]
    · by_cases hkp : k = pk
      · subst hkp
        have hkk0 : k ≠ k0 := fun hh => hp (hh ▸ rfl)
        simp [setKey, hp, lookup_cons_self, hkk0]
      · simp [setKey, hp, lookup_cons_ne k pk pv _ hkp, ih]

/-- Lookup over JS object spread: the supplied map wins key-by-key,
the inherited map fills the rest (requires the supplied map to have
unique keys, as JS objects do). -/
theorem objectSpread_lookup (a b : List (String × String)) (k : String)
    (hnd : (b.map Prod.fst).Nodup) :
    (objectSpread a b).lookup k =
      (match b.lookup k with
       | some v => some v
       | none => a.lookup k) := by
  induction b generalizing a with
  | nil => simp [objectSpread]
  | cons p rest ih =>
    obtain ⟨k0, v0⟩ := p
    simp only [List.map_cons, List.nodup_cons] at hnd
    have hstep : objectSpread a ((k0, v0) :: rest) = objectSpread (setKey a k0 v0) rest := rfl
    rw [hstep, ih _ hnd.2]
    by_cases h : k = k0
    · subst h
      rw [lookup_none_of_not_mem rest k hnd.1, lookup_cons_self, setKey_lookup]
      simp
    · rw [lookup_cons_ne k k0 v0 rest h, setKey_lookup]
      simp [h]

/-- Removing one toolkit from the registry leaves a registry without
that id untouched. -/
theorem filter_ne_of_not_mem (rest : List (Nat × ToolkitState)) (i : Nat)
    (h : i ∉ rest.map Prod.fst) : rest.filter (fun q => q.1 != i) = rest := by
  induction rest with
  | nil => rfl
  | cons p l ih =>
    simp only [List.map_cons, List.mem_cons] at h
    push_neg at h
    have hb : (p.1 != i) = true := bne_iff_ne.mpr (fun hh => h.1 hh.symm)
    simp [List.filter_cons, hb, ih h.2]

/-- The sweep over a snapshot equal to the live registry: every member
is found registered when its turn comes (each cleanup only removes its
own id, and ids are unique), so every member's cleanup runs and the
registry is drained. -/
theorem sweep_drains (cenvOf : Nat → CleanupEnv) (members : List (Nat × ToolkitState))
    (hnd : (members.map Prod.fst).Nodup) :
    (sweep cenvOf members members).2 = [] ∧
      ∀ p ∈ members, ∃ ev, (p.1, ev) ∈ (sweep cenvOf members members).1 ∧
        Event.cleanupEntered ∈ ev := by
  induction members with
  | nil => exact ⟨rfl, by intro p hp; cases hp⟩
  | cons tk rest ih =>
    obtain ⟨i, st⟩ := tk
    simp only [List.map_cons, List.nodup_cons] at hnd
    have hfil : ((i, st) :: rest).filter (fun q => q.1 != i) = rest := by
      have hb : (((i, st) : Nat × ToolkitState).1 != i) = false := by simp
      rw [List.filter_cons]
      simp only [hb, if_neg Bool.false_ne_true]
      exact filter_ne_of_not_mem rest i hnd.1
    have hstep : sweep cenvOf ((i, st) :: rest) ((i, st) :: rest) =
        ((i, (cleanup (cenvOf i) st true).events) :: (sweep cenvOf rest rest).1,
          (sweep cenvOf rest rest).2) := by
      simp [sweep, lookup_cons_self, hfil]
    obtain ⟨ih1, ih2⟩ := ih hnd.2
    rw [hstep]
    refine ⟨ih1, ?_⟩
    intro p hp
    rcases List.mem_cons.mp hp with h | h
    · subst h
      exact ⟨(cleanup (cenvOf i) st true).events, List.mem_cons_self _ _,
        cleanupEntered_mem _ _ _⟩
    · obtain ⟨ev, hev, hent⟩ := ih2 p h
      exact ⟨ev, List.mem_cons_of_mem _ hev, hent⟩

/-- The `shuttingDown` latch short-circuits a repeated trigger. -/
theorem shutdownGracefully_latched (cenvOf : Nat → CleanupEnv) (g : GlobalState)
    (h : g.shuttingDown = true) : shutdownGracefully cenvOf g = (g, []) := by
  simp [shutdownGracefully, h]

/-- After any trigger the latch is set. -/
theorem shutdownGracefully_sets_latch (cenvOf : Nat → CleanupEnv) (g : GlobalState) :
    (shutdownGracefully cenvOf g).1.shuttingDown = true := by
  by_cases h : g.shuttingDown = true <;> simp [shutdownGracefully, h]

/-- Once the latch is set, any number of further signal deliveries does
nothing. -/
theorem deliverSignals_latched (cenvOf : Nat → CleanupEnv) (n : Nat) (g : GlobalState)
    (h : g.shuttingDown = true) : deliverSignals cenvOf n g = (g, []) := by
  induction n with
  | zero => rfl
  | succ n ih => simp [deliverSignals, shutdownGracefully_latched cenvOf g h, ih]

/-! ## Further fixtures -/

/-- A fully initialized toolkit state with a live child-process handle
(the handle can only come from outside `core.ts`; see C10). -/
def fullState : ToolkitState :=
  { tools := [{ name := "echo", description := "echo tool", schemaKeys := ["msg"] }]
    listedTools := some [goodDesc]
    transport := some { command := "node", args := ["server.js"], env := [] }
    client := some ()
    childProcess := some { pid := some 4242, killed := false } }

/-- External outcomes where the listing contains one convertible and
one broken descriptor. -/
def ienvBadList : InitEnv :=
  { connectOutcome := Except.ok (), listOutcome := Except.ok [goodDesc, badDesc] }

/-- A configuration supplying environment overrides. -/
def cfgEnvEx : ServerConfig :=
  { command := some "node", args := none, env := some [("B", "3"), ("C", "4")] }

/-- First `cleanup` of a successfully initialized but never-registered
toolkit (registration is the caller's job, see C1). -/
def c4First : CleanupResult :=
  cleanup cenvOk (initToolkit ienvOk cenvOk cfgOk [] Platform.other freshToolkit false).state
    false

/-- Second `cleanup` in sequence after `c4First`. -/
def c4Second : CleanupResult := cleanup cenvOk c4First.state c4First.registered

/-- Per-toolkit cleanup environments for the shutdown example: toolkit
1's cleanup fails at every external step, toolkit 2's succeeds. -/
def cenvSel : Nat → CleanupEnv := fun i => if i = 1 then cenvBad else cenvOk

/-- A process state with two registered toolkits and the latch clear. -/
def gEx : GlobalState :=
  { shuttingDown := false, activeToolkits := [(1, fullState), (2, freshToolkit)] }

/-- The spec's environment-merge example, evaluated on the source's
spread: inherited `A=1, B=2` overridden by supplied `B=3, C=4`. -/
theorem objectSpread_example :
    objectSpread [("A", "1"), ("B", "2")] [("B", "3"), ("C", "4")] =
      [("A", "1"), ("B", "3"), ("C", "4")] := by decide

/-! ## Claim C1 -/

/-- Claim C1, counterexample: a fresh, unregistered toolkit completes
`initialize()` successfully and is still not a member of the registry —
`initialize()` has no registration step. -/
theorem initToolkit_no_registration_cex :
    (initToolkit ienvOk cenvOk cfgOk [] Platform.other freshToolkit false).result =
        Except.ok () ∧
      (initToolkit ienvOk cenvOk cfgOk [] Platform.other freshToolkit false).registered =
        false :=
  ⟨rfl, rfl⟩

/-- Claim C1 (amended): a successful `initialize()` leaves registry
membership exactly as it was — the method itself never registers the
toolkit (the caller does, outside this module) — and after any
`cleanup()` call the toolkit is not a member of the registry. -/
theorem initToolkit_registry_membership (ienv : InitEnv) (cenv : CleanupEnv)
    (cfg : ServerConfig) (hostEnv : List (String × String)) (platform : Platform)
    (s : ToolkitState) (reg : Bool)
    (hok : (initToolkit ienv cenv cfg hostEnv platform s reg).result = Except.ok ()) :
    (initToolkit ienv cenv cfg hostEnv platform s reg).registered = reg ∧
      ∀ cenv2 s2 reg2, (cleanup cenv2 s2 reg2).registered = false := by
  refine ⟨?_, fun cenv2 s2 reg2 => cleanup_registered_false cenv2 s2 reg2⟩
  rcases initToolkit_shape ienv cenv cfg hostEnv platform s reg with ⟨_, h2, _⟩ | ⟨e, s2, _, heq⟩
  · exact h2
  · rw [heq] at hok
    simp [initFail] at hok

/-- Claim C1, witness: the amended statement at a concrete registered
toolkit. -/
theorem initToolkit_registry_membership_witness :
    ((initToolkit ienvOk cenvOk cfgOk [] Platform.other freshToolkit true).result =
        Except.ok ()) ∧
      ((initToolkit ienvOk cenvOk cfgOk [] Platform.other freshToolkit true).registered = true ∧
        ∀ cenv2 s2 reg2, (cleanup cenv2 s2 reg2).registered = false) :=
  ⟨rfl, initToolkit_registry_membership ienvOk cenvOk cfgOk [] Platform.other freshToolkit true
    rfl⟩

/-! ## Claim C2 -/

/-- Claim C2, counterexample: for an unregistered toolkit, a failing
`initialize()` does invoke `cleanup()`, but the early return of
`cleanup()` keeps the partially initialized state — the client
reference assigned before the failure is not dropped. -/
theorem init_failure_partial_state_cex :
    (initToolkit ienvOk cenvOk cfgNoCommand [] Platform.other freshToolkit false).result =
        Except.error MCPError.configurationError ∧
      Event.cleanupEntered ∈
        (initToolkit ienvOk cenvOk cfgNoCommand [] Platform.other freshToolkit false).events ∧
      (initToolkit ienvOk cenvOk cfgNoCommand [] Platform.other
          freshToolkit false).state.client ≠ none := by
  refine ⟨rfl, ?_, ?_⟩ <;> decide

/-- Claim C2 (amended): on a failure at any stage of `initialize()`,
`cleanup()` is invoked before the original error propagates; the
partial state (tool list, client, transport, child process) is released
only when the toolkit is registered in the Active-Set Registry at that
moment — for an unregistered toolkit `cleanup()` returns early and the
partial state is retained. -/
theorem init_failure_invokes_cleanup (ienv : InitEnv) (cenv : CleanupEnv)
    (cfg : ServerConfig) (hostEnv : List (String × String)) (platform : Platform)
    (s : ToolkitState) (reg : Bool) (e : MCPError)
    (herr : (initToolkit ienv cenv cfg hostEnv platform s reg).result = Except.error e) :
    Event.cleanupEntered ∈ (initToolkit ienv cenv cfg hostEnv platform s reg).events ∧
      (reg = true →
        (initToolkit ienv cenv cfg hostEnv platform s reg).state.tools = [] ∧
          (initToolkit ienv cenv cfg hostEnv platform s reg).state.client = none ∧
          (initToolkit ienv cenv cfg hostEnv platform s reg).state.transport = none ∧
          (initToolkit ienv cenv cfg hostEnv platform s reg).state.childProcess = none) := by
  rcases initToolkit_shape ienv cenv cfg hostEnv platform s reg with ⟨h1, _, _⟩ | ⟨e2, s2, _, heq⟩
  · rw [h1] at herr
    exact Except.noConfusion herr
  · rw [heq]
    constructor
    · simpa [initFail] using cleanupEntered_mem cenv s2 reg
    · intro hreg
      subst hreg
      simp [initFail, cleanup_state_of_registered, releasedToolkit]

/-- Claim C2, witness: the amended statement for a registered toolkit
failing on a missing command. -/
theorem init_failure_invokes_cleanup_witness :
    ((initToolkit ienvOk cenvOk cfgNoCommand [] Platform.other freshToolkit true).result =
        Except.error MCPError.configurationError) ∧
      (Event.cleanupEntered ∈
          (initToolkit ienvOk cenvOk cfgNoCommand [] Platform.other freshToolkit true).events ∧
        (true = true →
          (initToolkit ienvOk cenvOk cfgNoCommand [] Platform.other
              freshToolkit true).state.tools = [] ∧
            (initToolkit ienvOk cenvOk cfgNoCommand [] Platform.other
              freshToolkit true).state.client = none ∧
            (initToolkit ienvOk cenvOk cfgNoCommand [] Platform.other
              freshToolkit true).state.transport = none ∧
            (initToolkit ienvOk cenvOk cfgNoCommand [] Platform.other
              freshToolkit true).state.childProcess = none)) :=
  ⟨rfl, init_failure_invokes_cleanup ienvOk cenvOk cfgNoCommand [] Platform.other freshToolkit
    true MCPError.configurationError rfl⟩

/-! ## Claim C3 -/

/-- Claim C3, counterexample: the reply `\x7b "result": 42 \x7d` does not
normalize to `"42"` — the code has no `result`-field handling. -/
theorem result_reply_not_42_cex :
    mcpToolInvoke "calc" (Except.ok (Json.obj [("result", Json.num 42)]))
      (Except.ok (Json.obj [("result", Json.num 42)])) ≠ "42" := by decide

/-- Claim C3 (amended): normalization recognizes, in priority order,
only a `content` field (standard schema) and a `toolResult` field
(compatibility schema); `result` and `data` fields are not recognized.
A reply `\x7b "result": 42 \x7d` passes the compatibility schema with
`toolResult` undefined, so `invoke()` resolves to the serialization of
the empty string; a `data` reply behaves the same way. -/
theorem normalization_recognized_shapes :
    mcpToolInvoke "t"
        (Except.ok (Json.obj [("content",
          Json.arr [Json.obj [("type", Json.str "text"), ("text", Json.str "ok")]])]))
        (Except.error "unused") = "[\x7b\"type\":\"text\",\"text\":\"ok\"\x7d]" ∧
      mcpToolInvoke "t" (Except.ok (Json.obj [("toolResult", Json.str "done")]))
        (Except.ok (Json.obj [("toolResult", Json.str "done")])) = "done" ∧
      mcpToolInvoke "t" (Except.ok (Json.obj [("result", Json.num 42)]))
        (Except.ok (Json.obj [("result", Json.num 42)])) = "\"\"" ∧
      mcpToolInvoke "t" (Except.ok (Json.obj [("data", Json.str "payload")]))
        (Except.ok (Json.obj [("data", Json.str "payload")])) = "\"\"" :=
  ⟨rfl, rfl, rfl, rfl⟩

/-! ## Claim C4 -/

/-- Claim C4, counterexample: for a toolkit that was never registered,
both `cleanup()` calls return early, so the end state after two calls
is not the released one — the tool list is non-empty and the client
reference survives. -/
theorem cleanup_end_state_cex :
    c4Second.state.tools ≠ [] ∧ c4Second.state.client ≠ none := by
  constructor <;> decide

/-- Claim C4 (amended): `cleanup()` is idempotent — the second call in
sequence leaves the state and registry membership exactly as the first
left them and attempts no SIGTERM/SIGKILL — and the end state is the
released one (empty tool list, null client and transport) exactly when
the toolkit was registered at the first call; for an unregistered
toolkit both calls return early, leaving the state as it was. -/
theorem cleanup_idempotent (cenv cenv2 : CleanupEnv) (s : ToolkitState) (reg : Bool) :
    (cleanup cenv2 (cleanup cenv s reg).state (cleanup cenv s reg).registered).state =
        (cleanup cenv s reg).state ∧
      (cleanup cenv2 (cleanup cenv s reg).state (cleanup cenv s reg).registered).registered =
        (cleanup cenv s reg).registered ∧
      (∀ pid,
        Event.sigterm pid ∉
            (cleanup cenv2 (cleanup cenv s reg).state
              (cleanup cenv s reg).registered).events ∧
          Event.sigkill pid ∉
            (cleanup cenv2 (cleanup cenv s reg).state
              (cleanup cenv s reg).registered).events) ∧
      (reg = true →
        (cleanup cenv s reg).state.tools = [] ∧
          (cleanup cenv s reg).state.client = none ∧
          (cleanup cenv s reg).state.transport = none) := by
  cases reg <;> simp [cleanup, releasedToolkit]

/-- Claim C4, witness: the amended statement at a registered toolkit
with a live subprocess handle and failing teardown steps. -/
theorem cleanup_idempotent_witness :
    (cleanup cenvBad (cleanup cenvBad fullState true).state
          (cleanup cenvBad fullState true).registered).state =
        (cleanup cenvBad fullState true).state ∧
      (cleanup cenvBad (cleanup cenvBad fullState true).state
          (cleanup cenvBad fullState true).registered).registered =
        (cleanup cenvBad fullState true).registered ∧
      (∀ pid,
        Event.sigterm pid ∉
            (cleanup cenvBad (cleanup cenvBad fullState true).state
              (cleanup cenvBad fullState true).registered).events ∧
          Event.sigkill pid ∉
            (cleanup cenvBad (cleanup cenvBad fullState true).state
              (cleanup cenvBad fullState true).registered).events) ∧
      (true = true →
        (cleanup cenvBad fullState true).state.tools = [] ∧
          (cleanup cenvBad fullState true).state.client = none ∧
          (cleanup cenvBad fullState true).state.transport = none) :=
  cleanup_idempotent cenvBad cenvBad fullState true

/-! ## Claim C5 -/

/-- Claim C5: `invoke()` is total — for every tool name and every
outcome of the two call round trips it resolves to a string (the
embedding is a total function into `String`, which is exactly the
"never raises" containment): either the standard-schema normalization
of a `content` reply, or the `toolResult` normalization under the
compatibility schema, or a textual error string that names the tool and
both underlying failure reasons. -/
theorem mcp_invoke_total_contract (name : String) (res1 res2 : Except String Json) :
    (∃ r c, res1 = Except.ok r ∧ standardParse r = Except.ok c ∧
        mcpToolInvoke name res1 res2 = stringify (jsCoalesce (some c))) ∨
      (∃ r tr, res2 = Except.ok r ∧ compatParse r = Except.ok tr ∧
        mcpToolInvoke name res1 res2 = normalizeToolResult tr) ∨
      (∃ e1 e2, mcpToolInvoke name res1 res2 =
        "Error: Tool " ++ name ++ " failed. Standard Schema Error: " ++ e1 ++
          ". Compat Schema Error: " ++ e2) := by
  cases res1 with
  | ok reply =>
    cases hs : standardParse reply with
    | ok c => exact Or.inl ⟨reply, c, rfl, hs, by simp [mcpToolInvoke, hs]⟩
    | error e1 =>
      cases res2 with
      | ok reply2 =>
        cases hc : compatParse reply2 with
        | ok tr =>
          exact Or.inr (Or.inl ⟨reply2, tr, rfl, hc,
            by simp [mcpToolInvoke, hs, compatAttempt, hc]⟩)
        | error e2 =>
          exact Or.inr (Or.inr ⟨e1, e2,
            by simp [mcpToolInvoke, hs, compatAttempt, hc, errorFallback]⟩)
      | error e2 =>
        exact Or.inr (Or.inr ⟨e1, e2,
          by simp [mcpToolInvoke, hs, compatAttempt, errorFallback]⟩)
  | error e1 =>
    cases res2 with
    | ok reply2 =>
      cases hc : compatParse reply2 with
      | ok tr =>
        exact Or.inr (Or.inl ⟨reply2, tr, rfl, hc, by simp [mcpToolInvoke, compatAttempt, hc]⟩)
      | error e2 =>
        exact Or.inr (Or.inr ⟨e1, e2,
          by simp [mcpToolInvoke, compatAttempt, hc, errorFallback]⟩)
    | error e2 =>
      exact Or.inr (Or.inr ⟨e1, e2, by simp [mcpToolInvoke, compatAttempt, errorFallback]⟩)

/-! ## Claim C6 -/

/-- Claim C6: repeated delivery of termination signals runs the sweep
at most once (the `shuttingDown` latch): `n + 1` deliveries have
exactly the effect of the first; the single sweep snapshots the
registry, drains it, and runs `cleanup()` on every member — whatever
each member's own cleanup outcomes are (`cenvOf` is universally
quantified, so one toolkit's failing teardown cannot abort another's
cleanup). -/
theorem shutdown_single_sweep (cenvOf : Nat → CleanupEnv) (g : GlobalState) (n : Nat)
    (hnd : (g.activeToolkits.map Prod.fst).Nodup) (h0 : g.shuttingDown = false) :
    deliverSignals cenvOf (n + 1) g = shutdownGracefully cenvOf g ∧
      (shutdownGracefully cenvOf g).1.activeToolkits = [] ∧
      ∀ p ∈ g.activeToolkits, ∃ ev, (p.1, ev) ∈ (shutdownGracefully cenvOf g).2 ∧
        Event.cleanupEntered ∈ ev := by
  have hlatch := shutdownGracefully_sets_latch cenvOf g
  have hdel : deliverSignals cenvOf (n + 1) g = shutdownGracefully cenvOf g := by
    simp only [deliverSignals, deliverSignals_latched cenvOf n _ hlatch, List.append_nil]
  have hshut : shutdownGracefully cenvOf g =
      ({ shuttingDown := true
         activeToolkits := (sweep cenvOf g.activeToolkits g.activeToolkits).2 },
        (sweep cenvOf g.activeToolkits g.activeToolkits).1) := by
    simp [shutdownGracefully, h0]
  obtain ⟨hs1, hs2⟩ := sweep_drains cenvOf g.activeToolkits hnd
  refine ⟨hdel, ?_, ?_⟩
  · rw [hshut]
    exact hs1
  · intro p hp
    obtain ⟨ev, hev, hent⟩ := hs2 p hp
    rw [hshut]
    exact ⟨ev, hev, hent⟩

/-- Claim C6, witness: two signal deliveries to a process with two
registered toolkits, one of which fails every teardown step. -/
theorem shutdown_single_sweep_witness :
    ((gEx.activeToolkits.map Prod.fst).Nodup ∧ gEx.shuttingDown = false) ∧
      (deliverSignals cenvSel (1 + 1) gEx = shutdownGracefully cenvSel gEx ∧
        (shutdownGracefully cenvSel gEx).1.activeToolkits = [] ∧
        ∀ p ∈ gEx.activeToolkits, ∃ ev, (p.1, ev) ∈ (shutdownGracefully cenvSel gEx).2 ∧
          Event.cleanupEntered ∈ ev) :=
  ⟨⟨by decide, rfl⟩, shutdown_single_sweep cenvSel gEx 1 (by decide) rfl⟩

/-! ## Claim C7 -/

/-- Claim C7, counterexample: for an unregistered toolkit (reachable,
since `initialize()` never registers), a bad descriptor does fail the
whole `initialize()`, but the invoked `cleanup()` early-returns: no
`transport.close()` is attempted and the transport of the
already-spawned subprocess is still held, so the subprocess is not
cleaned up. -/
theorem bad_schema_subprocess_not_closed_cex :
    (initToolkit ienvBadList cenvOk cfgOk [] Platform.other freshToolkit false).result =
        Except.error MCPError.schemaError ∧
      (∀ b, Event.transportClose b ∉
        (initToolkit ienvBadList cenvOk cfgOk [] Platform.other freshToolkit false).events) ∧
      (initToolkit ienvBadList cenvOk cfgOk [] Platform.other
          freshToolkit false).state.transport ≠ none := by
  refine ⟨rfl, ?_, ?_⟩ <;> decide

/-- Claim C7 (amended): when the listing succeeds but any one
descriptor's argument schema is not object-typed with a properties map,
conversion fails, the whole `initialize()` fails with the schema error
(no toolkit exposing the remaining tools is produced) and `cleanup()`
is invoked; the already-created transport (the spawned subprocess) is
closed only when the toolkit is registered in the Active-Set Registry
at that moment — for an unregistered toolkit `cleanup()` returns early
and the subprocess is not closed. -/
theorem bad_schema_fails_init (ienv : InitEnv) (cenv : CleanupEnv) (cfg : ServerConfig)
    (hostEnv : List (String × String)) (platform : Platform) (s : ToolkitState) (reg : Bool)
    (c : String) (descs : List ToolDescriptor) (d : ToolDescriptor)
    (hfresh : s.client = none ∨ s.listedTools = none)
    (hcmd : cfg.command = some c) (hc : c ≠ "")
    (hconn : ienv.connectOutcome = Except.ok ())
    (hlist : ienv.listOutcome = Except.ok descs)
    (hd : d ∈ descs)
    (hbad : d.inputSchemaType ≠ "object" ∨ d.inputSchemaProperties = none) :
    (initToolkit ienv cenv cfg hostEnv platform s reg).result =
        Except.error MCPError.schemaError ∧
      Event.cleanupEntered ∈ (initToolkit ienv cenv cfg hostEnv platform s reg).events ∧
      (reg = true →
        ∃ b, Event.transportClose b ∈
          (initToolkit ienv cenv cfg hostEnv platform s reg).events) := by
  have hcond : ¬(s.client.isSome ∧ s.listedTools.isSome) := by
    rcases hfresh with h | h <;> simp [h]
  have hgt : convertAll descs = Except.error MCPError.schemaError :=
    convertAll_error_of_bad descs d hd hbad
  have hred : initToolkit ienv cenv cfg hostEnv platform s reg =
      initFail cenv
        { s with
          client := some ()
          transport := some
            { command := resolveCommand c platform
              args := cfg.args.getD []
              env := objectSpread hostEnv (cfg.env.getD []) }
          listedTools := some descs }
        reg MCPError.schemaError := by
    simp [initToolkit, hcond, setupTransport, hcmd, hc, hconn, hlist, get_tools, hgt]
  rw [hred]
  refine ⟨by simp [initFail], ?_, ?_⟩
  · simpa [initFail] using cleanupEntered_mem cenv _ reg
  · intro hreg
    subst hreg
    exact ⟨!cenv.closeThrows, by simp [initFail, cleanup]⟩

/-- Claim C7, witness: a registered toolkit whose listing contains one
good and one broken descriptor. -/
theorem bad_schema_fails_init_witness :
    ((freshToolkit.client = none ∨ freshToolkit.listedTools = none) ∧
      cfgOk.command = some "node" ∧ "node" ≠ "" ∧
      ienvBadList.connectOutcome = Except.ok () ∧
      ienvBadList.listOutcome = Except.ok [goodDesc, badDesc] ∧
      badDesc ∈ [goodDesc, badDesc] ∧
      (badDesc.inputSchemaType ≠ "object" ∨ badDesc.inputSchemaProperties = none)) ∧
    ((initToolkit ienvBadList cenvOk cfgOk [] Platform.other freshToolkit true).result =
        Except.error MCPError.schemaError ∧
      Event.cleanupEntered ∈
        (initToolkit ienvBadList cenvOk cfgOk [] Platform.other freshToolkit true).events ∧
      (true = true →
        ∃ b, Event.transportClose b ∈
          (initToolkit ienvBadList cenvOk cfgOk [] Platform.other freshToolkit true).events)) :=
  ⟨⟨Or.inl rfl, rfl, by decide, rfl, rfl, by decide, Or.inl (by decide)⟩,
    bad_schema_fails_init ienvBadList cenvOk cfgOk [] Platform.other freshToolkit true "node"
      [goodDesc, badDesc] badDesc (Or.inl rfl) rfl (by decide) rfl rfl (by decide)
      (Or.inl (by decide))⟩

/-! ## Claim C8 -/

/-- Claim C8: for every configuration whose `command` is absent or
empty, `initialize()` fails with the configuration error and the
toolkit ends up not registered (whether or not it had been registered
before). -/
theorem missing_command_fails (ienv : InitEnv) (cenv : CleanupEnv) (cfg : ServerConfig)
    (hostEnv : List (String × String)) (platform : Platform) (s : ToolkitState) (reg : Bool)
    (hcmd : cfg.command = none ∨ cfg.command = some "")
    (hfresh : s.client = none ∨ s.listedTools = none) :
    (initToolkit ienv cenv cfg hostEnv platform s reg).result =
        Except.error MCPError.configurationError ∧
      (initToolkit ienv cenv cfg hostEnv platform s reg).registered = false := by
  have hcond : ¬(s.client.isSome ∧ s.listedTools.isSome) := by
    rcases hfresh with h | h <;> simp [h]
  have hst : setupTransport cfg hostEnv platform = Except.error MCPError.configurationError := by
    rcases hcmd with h | h <;> simp [setupTransport, h]
  simp [initToolkit, hcond, hst, initFail, cleanup_registered_false]

/-- Claim C8, witness: a previously registered fresh toolkit with a
missing command. -/
theorem missing_command_fails_witness :
    ((cfgNoCommand.command = none ∨ cfgNoCommand.command = some "") ∧
      (freshToolkit.client = none ∨ freshToolkit.listedTools = none)) ∧
    ((initToolkit ienvOk cenvOk cfgNoCommand [] Platform.other freshToolkit true).result =
        Except.error MCPError.configurationError ∧
      (initToolkit ienvOk cenvOk cfgNoCommand [] Platform.other freshToolkit true).registered =
        false) :=
  ⟨⟨Or.inl rfl, Or.inl rfl⟩,
    missing_command_fails ienvOk cenvOk cfgNoCommand [] Platform.other freshToolkit true
      (Or.inl rfl) (Or.inl rfl)⟩

/-! ## Claim C9 -/

/-- Claim C9: for every inherited host environment and every supplied
`env` map (with unique keys, as JS objects have), `setupTransport`
builds the subprocess environment as the inherited environment
overridden key-by-key by the supplied map, supplied keys winning. -/
theorem env_merge_override (cfg : ServerConfig) (hostEnv sup : List (String × String))
    (platform : Platform) (c : String)
    (hc : cfg.command = some c) (hne : c ≠ "") (hsup : cfg.env = some sup)
    (hnd : (sup.map Prod.fst).Nodup) :
    ∃ t, setupTransport cfg hostEnv platform = Except.ok t ∧
      ∀ k, t.env.lookup k =
        (match sup.lookup k with
         | some v => some v
         | none => hostEnv.lookup k) := by
  have henv : cfg.env.getD [] = sup := by rw [hsup]; rfl
  refine ⟨{ command := resolveCommand c platform, args := cfg.args.getD [],
            env := objectSpread hostEnv sup }, ?_, ?_⟩
  · simp [setupTransport, hc, hne, henv]
  · intro k
    exact objectSpread_lookup hostEnv sup k hnd

/-- Claim C9, witness: inherited `\x7bA: "1", B: "2"\x7d` with supplied
`\x7bB: "3", C: "4"\x7d` (see also `objectSpread_example` for the resulting
map `\x7bA: "1", B: "3", C: "4"\x7d`). -/
theorem env_merge_override_witness :
    (cfgEnvEx.command = some "node" ∧ "node" ≠ "" ∧
      cfgEnvEx.env = some [("B", "3"), ("C", "4")] ∧
      ([("B", "3"), ("C", "4")].map Prod.fst).Nodup) ∧
    (∃ t, setupTransport cfgEnvEx [("A", "1"), ("B", "2")] Platform.other = Except.ok t ∧
      ∀ k, t.env.lookup k =
        (match [("B", "3"), ("C", "4")].lookup k with
         | some v => some v
         | none => [("A", "1"), ("B", "2")].lookup k)) :=
  ⟨⟨rfl, by decide, rfl, by decide⟩,
    env_merge_override cfgEnvEx [("A", "1"), ("B", "2")] [("B", "3"), ("C", "4")]
      Platform.other "node" rfl (by decide) rfl (by decide)⟩

/-! ## Claim C10 -/

/-- Claim C10: no operation ever assigns a non-null `childProcess` —
starting from a null handle, both `initialize()` and `cleanup()` leave
it null — so the SIGTERM/SIGKILL fallback branch of `cleanup()` is
unreachable and no termination signal is ever attempted; teardown
relies solely on `transport.close()`. -/
theorem childProcess_stays_null (ienv : InitEnv) (cenv : CleanupEnv) (cfg : ServerConfig)
    (hostEnv : List (String × String)) (platform : Platform) (s : ToolkitState) (reg : Bool)
    (h : s.childProcess = none) :
    (initToolkit ienv cenv cfg hostEnv platform s reg).state.childProcess = none ∧
      (cleanup cenv s reg).state.childProcess = none ∧
      ∀ pid, Event.sigterm pid ∉ (cleanup cenv s reg).events ∧
        Event.sigkill pid ∉ (cleanup cenv s reg).events := by
  refine ⟨?_, cleanup_childProcess_none cenv s reg h, cleanup_no_kill_of_none cenv s reg h⟩
  rcases initToolkit_shape ienv cenv cfg hostEnv platform s reg with ⟨_, _, h3⟩ | ⟨e, s2, hcp, heq⟩
  · rw [h3]
    exact h
  · rw [heq]
    simpa [initFail] using cleanup_childProcess_none cenv s2 reg (hcp.trans h)

/-- Claim C10, witness: a registered fresh toolkit under a hostile
cleanup environment still sees no kill signal. -/
theorem childProcess_stays_null_witness :
    freshToolkit.childProcess = none ∧
      ((initToolkit ienvOk cenvBad cfgOk [] Platform.other freshToolkit true).state.childProcess =
          none ∧
        (cleanup cenvBad freshToolkit true).state.childProcess = none ∧
        ∀ pid, Event.sigterm pid ∉ (cleanup cenvBad freshToolkit true).events ∧
          Event.sigkill pid ∉ (cleanup cenvBad freshToolkit true).events) :=
  ⟨rfl, childProcess_stays_null ienvOk cenvBad cfgOk [] Platform.other freshToolkit true rfl⟩

end MCPCore
